import Mathlib

/-
  Shallow embedding of the meshgram bridge core:
    - src/src/node_manager.py        (NodeManager)
    - src/src/meshtastic_interface.py (MeshtasticInterface send/retry paths)
    - src/src/message_processor.py   (MessageProcessor handlers)

  Modelling conventions:
    - Python dicts are association lists with first-match lookup; assignment
      is modelled by dinsert (remove old binding, prepend new), which matches
      dict lookup/pop/membership observably.
    - datetime.now() is passed in explicitly as a timestamp argument
      (String for ISO timestamps stored in records, Int for arithmetic time).
    - Python floats are modelled as Rat.
    - Calls into the external radio/chat libraries are modelled by a
      RadioOutcome oracle argument (the result of interface.sendText) and by
      an emitted list of Effect values; log calls at warning/error level that
      the spec mentions are kept as effects, debug/info logging is dropped.
    - A Python function that raises is modelled with Except in the component
      of its result that the caller matches on; the state component of the
      result is the state as left behind by the call.
-/

namespace Meshgram

/-- Python d.get(k): first-match lookup in an association list. -/
def dget {K V : Type} [DecidableEq K] (k : K) : List (K × V) → Option V
  | [] => none
  | (k', v) :: rest => if k' = k then some v else dget k rest

/-- Removal of every binding of a key; models dict.pop / del for the
unique-key lists that dict states are. -/
def derase {K V : Type} [DecidableEq K] (k : K) : List (K × V) → List (K × V)
  | [] => []
  | (k', v) :: rest => if k' = k then derase k rest else (k', v) :: derase k rest

/-- Python d[k] = v (overwrite-or-add). -/
def dinsert {K V : Type} [DecidableEq K] (k : K) (v : V) (m : List (K × V)) : List (K × V) :=
  (k, v) :: derase k m

/-- Python scalar values stored in node records. -/
inductive PyVal where
  | s (v : String)
  | i (v : Int)
  | q (v : Rat)
deriving DecidableEq, Repr

/-- A node record: the per-node dict held in NodeManager.nodes. -/
abbrev NRec := List (String × PyVal)

/-- NodeManager state (node_manager.py, NodeManager.__init__). -/
structure NodeManager where
  nodes : List (String × NRec)
  node_history : List (String × List NRec)
  history_limit : Nat
deriving DecidableEq, Repr

/-- Fresh NodeManager: empty dicts, history_limit 100. -/
def NodeManager.init : NodeManager := ⟨[], [], 100⟩

/-- NodeManager.update_node (node_manager.py lines 84-94): create an empty
record and history on first observation, dict-merge the partial data, stamp
last_updated with the current time, append a snapshot of the record to the
history, and pop the oldest history entry when the limit is exceeded. -/
def NodeManager.update_node (nm : NodeManager) (node_id : String) (data : NRec)
    (now : String) : NodeManager :=
  let present := (dget node_id nm.nodes).isSome
  let rec0 : NRec := if present then (dget node_id nm.nodes).getD [] else []
  let hist0 : List NRec := if present then (dget node_id nm.node_history).getD [] else []
  let rec1 : NRec := ("last_updated", PyVal.s now) :: (data ++ rec0)
  let hist1 := hist0 ++ [rec1]
  let hist2 := if nm.history_limit < hist1.length then hist1.tail else hist1
  { nm with nodes := dinsert node_id rec1 nm.nodes,
            node_history := dinsert node_id hist2 nm.node_history }

/-- NodeManager.get_node (node_manager.py lines 96-97). -/
def NodeManager.get_node (nm : NodeManager) (node_id : String) : Option NRec :=
  dget node_id nm.nodes

/-- Field projection: get_node(node_id) followed by .get(k) on the record. -/
def NodeManager.node_field (nm : NodeManager) (node_id k : String) : Option PyVal :=
  (nm.get_node node_id).bind fun r => dget k r

/-- The history list kept for a node (empty when the node is unknown). -/
def NodeManager.history_of (nm : NodeManager) (node_id : String) : List NRec :=
  (dget node_id nm.node_history).getD []

/-- The position payload fields read by update_node_position. -/
structure PositionData where
  latitudeI : Option Int
  longitudeI : Option Int
deriving DecidableEq, Repr

/-- NodeManager.update_node_position (node_manager.py lines 159-167): only
when both fixed-point fields are present, store them divided by 1e7 together
with a last_position_update stamp; otherwise do nothing at all. -/
def NodeManager.update_node_position (nm : NodeManager) (node_id : String)
    (pos : PositionData) (now : String) : NodeManager :=
  match pos.latitudeI, pos.longitudeI with
  | some lat, some lon =>
      nm.update_node node_id
        [("latitude", PyVal.q ((lat : Rat) / 10000000)),
         ("longitude", PyVal.q ((lon : Rat) / 10000000)),
         ("last_position_update", PyVal.s now)] now
  | _, _ => nm

/-- A sequence of update_node calls applied in order. -/
def applyOps (nm : NodeManager) (ops : List (String × NRec × String)) : NodeManager :=
  ops.foldl (fun acc op => acc.update_node op.1 op.2.1 op.2.2) nm

/-- MessageProcessor._get_battery_status (message_processor.py lines 400-401). -/
def get_battery_status (battery_level : Int) : String :=
  if battery_level = 101 then "PWR" else toString battery_level ++ "%"

/-- The battery_str computation inside NodeManager.get_node_telemetry
(node_manager.py lines 123-124): node.get('batteryLevel', 'N/A') compared
with 101, otherwise rendered with a percent sign. -/
def battery_value_str : Option PyVal → String
  | some (PyVal.i bl) => if bl = 101 then "PWR" else toString bl ++ "%"
  | some (PyVal.q bl) => if bl = 101 then "PWR" else toString bl ++ "%"
  | some (PyVal.s sv) => sv ++ "%"
  | none => "N/A%"

/-- The battery line of NodeManager.get_node_telemetry, none when the node is
unknown (the code then returns the "No telemetry available" fallback). -/
def NodeManager.get_node_telemetry_battery (nm : NodeManager) (node_id : String) :
    Option String :=
  (nm.get_node node_id).map fun node => battery_value_str (dget "batteryLevel" node)

/-- PendingMessage (meshtastic_interface.py lines 25-30): a dataclass with
value equality, which is what list.remove compares by. -/
structure PendingMessage where
  text : String
  recipient : String
  attempts : Nat
  last_attempt : Option Int
deriving DecidableEq, Repr

/-- The MeshtasticInterface state the send/retry paths touch. -/
structure MeshState where
  pending_messages : List PendingMessage
deriving DecidableEq, Repr

/-- Result of one call into interface.sendText: a packet id, or an exception. -/
inductive RadioOutcome where
  | ok (packet_id : Nat)
  | err (msg : String)
deriving DecidableEq, Repr

/-- Externally visible calls made by the handlers. -/
inductive Effect where
  | radio_sendText (text recipient : String)
  | radio_sendReaction (emoji message_id : String)
  | telegram_send (text : String)
  | telegram_add_reaction (message_id : Int) (emoji : String)
  | log_warning (msg : String)
  | log_error (msg : String)
deriving DecidableEq, Repr

/-- True on the two effects that call into the radio interface. -/
def Effect.isRadio : Effect → Bool
  | Effect.radio_sendText _ _ => true
  | Effect.radio_sendReaction _ _ => true
  | _ => false

/-- True on the two effects that call into the chat (Telegram) interface. -/
def Effect.isTelegram : Effect → Bool
  | Effect.telegram_send _ => true
  | Effect.telegram_add_reaction _ _ => true
  | _ => false

/-- MeshtasticInterface.send_message (meshtastic_interface.py lines 109-123).
Validation failures raise ValueError (the Except.error component) before any
state change or radio call.  Otherwise sendText is attempted; a sendText
exception is caught inside this function: it appends a fresh PendingMessage
and returns normally.  The function body has no return statement, so the
value handed back to callers on the non-raising paths is Python None,
modelled as (Except.ok none); the id produced by the radio never escapes. -/
def send_message (st : MeshState) (text recipient : String) (radio : RadioOutcome) :
    Except String (Option Nat) × MeshState × List Effect :=
  if text = "" ∨ recipient = "" then
    (Except.error "Text and recipient must not be empty", st, [])
  else if 230 < text.length then
    (Except.error "Message too long", st, [])
  else
    match radio with
    | RadioOutcome.ok _ => (Except.ok none, st, [Effect.radio_sendText text recipient])
    | RadioOutcome.err e =>
        (Except.ok none,
         { st with pending_messages :=
             st.pending_messages ++ [⟨text, recipient, 0, none⟩] },
         [Effect.radio_sendText text recipient,
          Effect.log_error ("Error sending message to Meshtastic: " ++ e)])

/-- list.remove on PendingMessage lists: drop the first value-equal element,
none when absent (Python raises ValueError then). -/
def removeFirst : List PendingMessage → PendingMessage → Option (List PendingMessage)
  | [], _ => none
  | x :: xs, m => if x = m then some xs else (removeFirst xs m).map (fun l => x :: l)

/-- In-place mutation of the first value-equal element (the retry loop mutates
the shared object the snapshot and the live list both hold). -/
def replaceFirst : List PendingMessage → PendingMessage → PendingMessage → List PendingMessage
  | [], _, _ => []
  | x :: xs, m, m' => if x = m then m' :: xs else x :: replaceFirst xs m m'

/-- The due-for-retry test of process_pending_messages (line 140). -/
def retryDue (m : PendingMessage) (now retry_interval : Int) : Bool :=
  match m.last_attempt with
  | none => true
  | some t => retry_interval < now - t

/-- The body of the for-loop in MeshtasticInterface.process_pending_messages
(meshtastic_interface.py lines 139-150) for one snapshot element m, acting on
the live list cur.  radioFails is the behaviour of interface.sendText during
this sweep.  Points traced from the source: send_message re-validates and can
raise ValueError (then the except branch bumps attempts and stamps the time
on the shared object); a radio failure is swallowed inside send_message,
which appends a fresh copy with attempts 0, after which list.remove deletes
the first value-equal element; the max-retries else branch removes without a
surrounding try (its remove never misses in the runs modelled here). -/
def sweepStep (max_retries : Nat) (retry_interval now : Int) (radioFails : Bool)
    (cur : List PendingMessage) (m : PendingMessage) : List PendingMessage :=
  if retryDue m now retry_interval then
    if m.attempts < max_retries then
      if m.text = "" ∨ m.recipient = "" ∨ 230 < m.text.length then
        replaceFirst cur m { m with attempts := m.attempts + 1, last_attempt := some now }
      else
        let cur1 := if radioFails then cur ++ [⟨m.text, m.recipient, 0, none⟩] else cur
        match removeFirst cur1 m with
        | some cur2 => cur2
        | none => cur1
    else
      (removeFirst cur m).getD cur
  else cur

/-- One wake-up of the retry loop: iterate over a snapshot of the pending list
(pending_messages[:]) while mutating the live list, with the configured
max_retries = 3 and retry_interval = 60 (meshtastic_interface.py lines 42-43). -/
def process_pending_sweep (now : Int) (radioFails : Bool)
    (pending : List PendingMessage) : List PendingMessage :=
  pending.foldl (sweepStep 3 60 now radioFails) pending

/-- PendingAck (message_processor.py lines 38-40). -/
structure PendingAck where
  telegram_message_id : Int
  timestamp : Int
deriving DecidableEq, Repr

/-- The MessageProcessor state the handlers touch.  pending_acks is keyed by
whatever value handle_telegram_text stores under — the return value of
send_message — hence the key type Option Nat, with none for Python None. -/
structure ProcState where
  message_id_map : List (Int × String)
  reverse_message_id_map : List (String × Int)
  pending_acks : List (Option Nat × PendingAck)
deriving DecidableEq, Repr

/-- MessageProcessor.handle_ack (message_processor.py lines 113-128): packets
without an id are logged and dropped; otherwise pop the pending entry, and
only when one was present and its telegram_message_id is truthy (a nonzero
int) call telegram.add_reaction with a check mark. -/
def handle_ack (st : ProcState) (packet_id : Option Nat) : ProcState × List Effect :=
  match packet_id with
  | none => (st, [Effect.log_warning "Received ACK without message ID"])
  | some mid =>
      let pending := dget (some mid) st.pending_acks
      let st' := { st with pending_acks := derase (some mid) st.pending_acks }
      match pending with
      | some pm =>
          if pm.telegram_message_id ≠ 0 then
            (st', [Effect.telegram_add_reaction pm.telegram_message_id "✅"])
          else
            (st', [Effect.log_warning "ACK received but no Telegram message ID found"])
      | none => (st', [Effect.log_warning "Received ACK for unknown message ID"])

/-- The fields of a chat text event that handle_telegram_text reads. -/
structure TextMsg where
  sender : String
  text : String
  message_id : Int
deriving DecidableEq, Repr

/-- MessageProcessor.handle_telegram_text (message_processor.py lines
138-159): truncate the sender to 10 characters, tag the text, call
send_message, and on normal return store a PendingAck under the returned
value (the timeout task it spawns is the separately modelled expiry, not an
immediate effect).  Only an exception escaping send_message reaches the
except branch that notifies the chat side.  default_node is
config.get('meshtastic.default_node_id'); a missing value is falsy in
send_message's validation exactly like the empty string. -/
def handle_telegram_text (pst : ProcState) (mst : MeshState) (msg : TextMsg)
    (default_node : Option String) (radio : RadioOutcome) (now : Int) :
    ProcState × MeshState × List Effect :=
  let sender := msg.sender.take 10
  let recipient := default_node.getD ""
  let mtext := "[TG:" ++ sender ++ "] " ++ msg.text
  let out := send_message mst mtext recipient radio
  match out.1 with
  | Except.ok ret =>
      ({ pst with pending_acks := dinsert ret ⟨msg.message_id, now⟩ pst.pending_acks },
       out.2.1, out.2.2)
  | Except.error e =>
      (pst, out.2.1,
       out.2.2 ++ [Effect.log_error ("Failed to send message to Meshtastic: " ++ e),
                   Effect.telegram_send "Failed to send message to Meshtastic. Please try again."])

/-- The location payload of a chat location event. -/
structure TLocation where
  latitude : Option Rat
  longitude : Option Rat
  altitude : Option Rat
deriving DecidableEq, Repr

/-- MessageProcessor.is_valid_coordinate (message_processor.py lines 225-227). -/
def is_valid_coordinate (lat lon : Option Rat) (alt : Rat) : Bool :=
  match lat, lon with
  | some la, some lo =>
      decide (-90 ≤ la) && decide (la ≤ 90) && decide (-180 ≤ lo) && decide (lo ≤ 180) &&
      decide (-1000 ≤ alt) && decide (alt ≤ 50000)
  | _, _ => false

/-- MessageProcessor.handle_telegram_location (message_processor.py lines
206-223): read lat/lon (None when absent), altitude defaulting to 0, sender
defaulting to "unknown"; invalid coordinates raise ValueError("Invalid
coordinates"), caught by the ValueError branch that reports invalid data
without any radio call; otherwise format and send, a ValueError out of
send_message landing in the same branch.  The numeric f-string formatting
(:.6f) is modelled by toString on Rat; none of the claims depend on it. -/
def handle_telegram_location (mst : MeshState) (loc : Option TLocation)
    (sender : Option String) (default_node : Option String) (radio : RadioOutcome) :
    MeshState × List Effect :=
  let l := loc.getD ⟨none, none, none⟩
  let alt := l.altitude.getD 0
  let snd := sender.getD "unknown"
  if is_valid_coordinate l.latitude l.longitude alt = false then
    (mst, [Effect.log_error "Invalid location data: Invalid coordinates",
           Effect.telegram_send "Failed to send location to Meshtastic. Invalid data: Invalid coordinates"])
  else
    let la := l.latitude.getD 0
    let lo := l.longitude.getD 0
    let body := "location lat=" ++ toString la ++ ", lon=" ++ toString lo ++
      ", alt=" ++ toString alt ++ "m"
    let out := send_message mst ("[TG:" ++ snd ++ "] " ++ body) (default_node.getD "") radio
    match out.1 with
    | Except.ok _ =>
        (out.2.1, out.2.2 ++ [Effect.telegram_send ("📍 Location sent to Meshtastic network: " ++ body)])
    | Except.error e =>
        (out.2.1, out.2.2 ++ [Effect.log_error ("Invalid location data: " ++ e),
          Effect.telegram_send ("Failed to send location to Meshtastic. Invalid data: " ++ e)])

/-- The fields of a chat reaction event that handle_telegram_reaction reads. -/
structure ReactionMsg where
  emoji : Option String
  original_message_id : Option Int
deriving DecidableEq, Repr

/-- MessageProcessor.handle_telegram_reaction (message_processor.py lines
254-268): a falsy emoji (absent or empty) or falsy target id (absent or 0)
is logged and dropped; otherwise the chat-to-radio id map is consulted and a
radio send_reaction is made only when a correlate exists. -/
def handle_telegram_reaction (st : ProcState) (msg : ReactionMsg) :
    ProcState × List Effect :=
  match msg.emoji, msg.original_message_id with
  | some e, some omid =>
      if e = "" ∨ omid = 0 then
        (st, [Effect.log_error "Missing emoji or original_message_id in reaction message"])
      else
        match dget omid st.message_id_map with
        | some mmid => (st, [Effect.radio_sendReaction e mmid])
        | none => (st, [Effect.log_warning "Could not find corresponding Meshtastic message"])
  | _, _ => (st, [Effect.log_error "Missing emoji or original_message_id in reaction message"])

/-- The concrete forever-retried message of the retry-loop analysis: a valid
tagged chat text as enqueued by a failed send_message. -/
def c2_msg : PendingMessage := ⟨"[TG:alice] hello", "!abc", 0, none⟩

/-- The well-formedness that every reachable NodeManager state enjoys: the
limit is the configured 100, histories are within the limit, and a node has a
history exactly when it has a record. -/
def HistInv (nm : NodeManager) : Prop :=
  nm.history_limit = 100 ∧
  (∀ id h, dget id nm.node_history = some h → h.length ≤ 100) ∧
  (∀ id, (dget id nm.nodes).isSome = (dget id nm.node_history).isSome)

/-
  Lemmas about the dict model.
-/

theorem dget_nil {K V : Type} [DecidableEq K] (k : K) : dget k ([] : List (K × V)) = none := rfl

theorem dget_cons {K V : Type} [DecidableEq K] (k k' : K) (v : V) (m : List (K × V)) :
    dget k ((k', v) :: m) = if k' = k then some v else dget k m := rfl

theorem dget_append {K V : Type} [DecidableEq K] (k : K) (l₁ l₂ : List (K × V)) :
    dget k (l₁ ++ l₂) = ((dget k l₁).orElse fun _ => dget k l₂) := by
  induction l₁ with
  | nil => simp [dget]
  | cons hd tl ih =>
      obtain ⟨k', v⟩ := hd
      by_cases h : k' = k <;> simp [dget, h, ih]

theorem dget_derase_self {K V : Type} [DecidableEq K] (k : K) (m : List (K × V)) :
    dget k (derase k m) = none := by
  induction m with
  | nil => rfl
  | cons hd tl ih =>
      obtain ⟨k', v⟩ := hd
      by_cases h : k' = k <;> simp [derase, dget, h, ih]

theorem dget_derase_ne {K V : Type} [DecidableEq K] {k k' : K} (h : k' ≠ k) (m : List (K × V)) :
    dget k (derase k' m) = dget k m := by
  induction m with
  | nil => rfl
  | cons hd tl ih =>
      obtain ⟨k'', v⟩ := hd
      by_cases h2 : k'' = k'
      · subst h2
        simp [derase, dget, h, ih]
      · by_cases h3 : k'' = k <;> simp [derase, dget, h2, h3, Ne.symm h, ih]

theorem derase_of_dget_none {K V : Type} [DecidableEq K] {k : K} {m : List (K × V)}
    (h : dget k m = none) : derase k m = m := by
  induction m with
  | nil => rfl
  | cons hd tl ih =>
      obtain ⟨k', v⟩ := hd
      by_cases h2 : k' = k
      · simp [dget, h2] at h
      · simp [dget, h2] at h
        simp [derase, h2, ih h]

theorem dget_dinsert_self {K V : Type} [DecidableEq K] (k : K) (v : V) (m : List (K × V)) :
    dget k (dinsert k v m) = some v := by
  simp [dinsert, dget]

theorem dget_dinsert_ne {K V : Type} [DecidableEq K] {k k' : K} (h : k' ≠ k) (v : V)
    (m : List (K × V)) : dget k (dinsert k' v m) = dget k m := by
  simp [dinsert, dget, h, dget_derase_ne h]

/-
  Helper lemmas about update_node, shared by the node-store claims.
-/

theorem get_node_update_self (nm : NodeManager) (id : String) (data : NRec) (now : String) :
    (nm.update_node id data now).get_node id =
      some (("last_updated", PyVal.s now) ::
        (data ++ if (dget id nm.nodes).isSome then (dget id nm.nodes).getD [] else [])) := by
  simp [NodeManager.update_node, NodeManager.get_node, dget_dinsert_self]

theorem node_field_update_last (nm : NodeManager) (id : String) (data : NRec) (now : String) :
    (nm.update_node id data now).node_field id "last_updated" = some (PyVal.s now) := by
  simp [NodeManager.node_field, get_node_update_self, dget]

theorem node_field_update_hit (nm : NodeManager) (id : String) (data : NRec) (now : String)
    {k : String} {v : PyVal} (hk : k ≠ "last_updated") (hv : dget k data = some v) :
    (nm.update_node id data now).node_field id k = some v := by
  simp [NodeManager.node_field, get_node_update_self, dget, Ne.symm hk, dget_append, hv,
    Option.orElse]

theorem node_field_update_miss (nm : NodeManager) (id : String) (data : NRec) (now : String)
    {k : String} (hk : k ≠ "last_updated") (hv : dget k data = none) :
    (nm.update_node id data now).node_field id k = nm.node_field id k := by
  rcases h : dget id nm.nodes with _ | r
  · simp [NodeManager.node_field, NodeManager.get_node, get_node_update_self, dget,
      Ne.symm hk, dget_append, hv, Option.orElse, h]
  · simp [NodeManager.node_field, NodeManager.get_node, get_node_update_self, dget,
      Ne.symm hk, dget_append, hv, Option.orElse, h]

theorem histInv_init : HistInv NodeManager.init := by
  refine ⟨rfl, ?_, ?_⟩
  · intro id h hh
    simp [NodeManager.init, dget] at hh
  · intro id
    simp [NodeManager.init, dget]

theorem hist0_eq_history_of (nm : NodeManager) (hInv : HistInv nm) (id : String) :
    (if (dget id nm.nodes).isSome then (dget id nm.node_history).getD [] else []) =
      nm.history_of id := by
  rcases hh : dget id nm.node_history with _ | h
  · simp [NodeManager.history_of, hh]
  · have := hInv.2.2 id
    rw [hh] at this
    simp at this
    simp [NodeManager.history_of, hh, this]

theorem tail_append_singleton {α : Type} (l : List α) (a : α) (h : l ≠ []) :
    (l ++ [a]).tail = l.tail ++ [a] := by
  cases l with
  | nil => exact absurd rfl h
  | cons x xs => simp

theorem snap_fifo {α : Type} (h0 : List α) (r : α) :
    (if 100 < (h0 ++ [r]).length then (h0 ++ [r]).tail else h0 ++ [r]) =
      (if 100 ≤ h0.length then h0.tail else h0) ++ [r] := by
  by_cases hlen : 100 ≤ h0.length
  · have hne : h0 ≠ [] := by
      intro hn
      rw [hn] at hlen
      simp at hlen
    have hc : 100 < (h0 ++ [r]).length := by
      simp only [List.length_append, List.length_cons, List.length_nil]
      omega
    rw [if_pos hc, if_pos hlen, tail_append_singleton _ _ hne]
  · have hc : ¬ 100 < (h0 ++ [r]).length := by
      simp only [List.length_append, List.length_cons, List.length_nil]
      omega
    rw [if_neg hc, if_neg hlen]

theorem histInv_update (nm : NodeManager) (hInv : HistInv nm) (id : String) (data : NRec)
    (now : String) : HistInv (nm.update_node id data now) := by
  obtain ⟨hL, hB, hS⟩ := hInv
  refine ⟨hL, ?_, ?_⟩
  · intro id' h' hh'
    by_cases hid : id' = id
    · subst hid
      simp only [NodeManager.update_node, dget_dinsert_self] at hh'
      have hx := Option.some.inj hh'
      set hist0 := if (dget id' nm.nodes).isSome then (dget id' nm.node_history).getD [] else []
        with hh0
      have h0 : hist0.length ≤ 100 := by
        rcases hx2 : dget id' nm.node_history with _ | h0
        · rcases hp : (dget id' nm.nodes).isSome <;> simp [hh0, hx2, hp]
        · rcases hp : (dget id' nm.nodes).isSome <;> simp [hh0, hx2, hp]
          exact hB id' h0 hx2
      rw [← hx, hL, snap_fifo]
      by_cases hlen : 100 ≤ hist0.length
      · rw [if_pos hlen]
        simp only [List.length_append, List.length_tail, List.length_cons, List.length_nil]
        omega
      · rw [if_neg hlen]
        simp only [List.length_append, List.length_cons, List.length_nil]
        omega
    · simp only [NodeManager.update_node, dget_dinsert_ne (fun h => hid (h.symm)) ] at hh'
      exact hB id' h' hh'
  · intro id'
    by_cases hid : id' = id
    · subst hid
      simp [NodeManager.update_node, dget_dinsert_self]
    · simp only [NodeManager.update_node, dget_dinsert_ne (fun h => hid (h.symm))]
      exact hS id'

theorem histInv_applyOps (ops : List (String × NRec × String)) :
    HistInv (applyOps NodeManager.init ops) := by
  suffices h : ∀ nm, HistInv nm → HistInv (applyOps nm ops) from h _ histInv_init
  induction ops with
  | nil => intro nm h; exact h
  | cons op rest ih =>
      intro nm h
      exact ih _ (histInv_update nm h op.1 op.2.1 op.2.2)

theorem history_of_update_raw (nm : NodeManager) (id : String) (data : NRec) (now : String) :
    (nm.update_node id data now).history_of id =
      (let hist0 := if (dget id nm.nodes).isSome then (dget id nm.node_history).getD [] else []
       let rec1 : NRec := ("last_updated", PyVal.s now) ::
         (data ++ if (dget id nm.nodes).isSome then (dget id nm.nodes).getD [] else [])
       if nm.history_limit < (hist0 ++ [rec1]).length then (hist0 ++ [rec1]).tail
       else hist0 ++ [rec1]) := by
  simp only [NodeManager.update_node, NodeManager.history_of, dget_dinsert_self,
    Option.getD_some]

theorem history_of_update_self (nm : NodeManager) (hInv : HistInv nm) (id : String)
    (data : NRec) (now : String) :
    (nm.update_node id data now).history_of id =
      (if 100 ≤ (nm.history_of id).length then (nm.history_of id).tail
       else nm.history_of id) ++
      [("last_updated", PyVal.s now) ::
        (data ++ if (dget id nm.nodes).isSome then (dget id nm.nodes).getD [] else [])] := by
  rw [history_of_update_raw]
  simp only [hist0_eq_history_of nm hInv id, hInv.1, snap_fifo]

/-
  The claims.
-/

/-- C5: for every node identifier and update, update_node creates a record if
none exists, makes the updated key readable back via get_node, preserves
every previously set field whose key is not in the update (merge, not
replace), and rewrites last_updated on every update. -/
theorem c5_update_node_merge (nm : NodeManager) (id : String) (data : NRec) (now : String)
    (k : String) :
    (nm.update_node id data now).get_node id ≠ none ∧
    (nm.update_node id data now).node_field id "last_updated" = some (PyVal.s now) ∧
    (k ≠ "last_updated" → ∀ v, dget k data = some v →
      (nm.update_node id data now).node_field id k = some v) ∧
    (k ≠ "last_updated" → dget k data = none →
      (nm.update_node id data now).node_field id k = nm.node_field id k) := by
  refine ⟨?_, node_field_update_last nm id data now, ?_, ?_⟩
  · rw [get_node_update_self]
    simp
  · intro hk v hv
    exact node_field_update_hit nm id data now hk hv
  · intro hk hv
    exact node_field_update_miss nm id data now hk hv

/-- C5 witness: a concrete two-update run exercising record creation, merge
that preserves the unrelated earlier field, and the last_updated rewrite. -/
theorem c5_update_node_merge_witness :
    ("a" ≠ "last_updated") ∧
    (((NodeManager.init.update_node "!n1" [("a", PyVal.i 1)] "t0").update_node "!n1"
        [("b", PyVal.i 2)] "t1").node_field "!n1" "a" = some (PyVal.i 1)) ∧
    (((NodeManager.init.update_node "!n1" [("a", PyVal.i 1)] "t0").update_node "!n1"
        [("b", PyVal.i 2)] "t1").node_field "!n1" "b" = some (PyVal.i 2)) ∧
    (((NodeManager.init.update_node "!n1" [("a", PyVal.i 1)] "t0").update_node "!n1"
        [("b", PyVal.i 2)] "t1").node_field "!n1" "last_updated" = some (PyVal.s "t1")) := by
  have h := c5_update_node_merge (NodeManager.init.update_node "!n1" [("a", PyVal.i 1)] "t0")
    "!n1" [("b", PyVal.i 2)] "t1" "a"
  have h2 := c5_update_node_merge (NodeManager.init.update_node "!n1" [("a", PyVal.i 1)] "t0")
    "!n1" [("b", PyVal.i 2)] "t1" "b"
  refine ⟨by decide, ?_, h2.2.2.1 (by decide) (PyVal.i 2) (by decide), h.2.1⟩
  have h3 := h.2.2.2 (by decide) (by decide)
  rw [h3]
  rfl

/-- C6: starting from a fresh store, after any sequence of updates every
per-node history is at most 100 long; one more update still respects the
bound, appends a snapshot of the updated record as the last history entry,
and evicts the oldest entry first exactly when the history was full. -/
theorem c6_history_bounded_fifo (ops : List (String × NRec × String)) (id : String)
    (data : NRec) (now : String) :
    ((applyOps NodeManager.init ops).history_of id).length ≤ 100 ∧
    (((applyOps NodeManager.init ops).update_node id data now).history_of id).length ≤ 100 ∧
    ∃ r, ((applyOps NodeManager.init ops).update_node id data now).get_node id = some r ∧
      ((applyOps NodeManager.init ops).update_node id data now).history_of id =
        (if 100 ≤ ((applyOps NodeManager.init ops).history_of id).length
         then ((applyOps NodeManager.init ops).history_of id).tail
         else (applyOps NodeManager.init ops).history_of id) ++ [r] := by
  have hInv := histInv_applyOps ops
  have hInv2 := histInv_update _ hInv id data now
  refine ⟨?_, ?_, ?_⟩
  · rcases hh : dget id (applyOps NodeManager.init ops).node_history with _ | h
    · simp [NodeManager.history_of, hh]
    · simp only [NodeManager.history_of, hh, Option.getD_some]
      exact hInv.2.1 id h hh
  · rcases hh : dget id ((applyOps NodeManager.init ops).update_node id data now).node_history
      with _ | h
    · simp [NodeManager.history_of, hh]
    · simp only [NodeManager.history_of, hh, Option.getD_some]
      exact hInv2.2.1 id h hh
  · exact ⟨_, get_node_update_self _ id data now, history_of_update_self _ hInv id data now⟩

/-- C7: battery level 101 renders as PWR (never as a percentage), and every
other integer battery level n renders as its decimal digits followed by a
percent sign, both in the dedicated helper and in the telemetry rendering of
a node record. -/
theorem c7_battery_render (nm : NodeManager) (id now : String) (n : Int) :
    get_battery_status 101 = "PWR" ∧
    get_battery_status 101 ≠ "101%" ∧
    get_battery_status 57 = "57%" ∧
    (n ≠ 101 → get_battery_status n = toString n ++ "%") ∧
    ((nm.update_node id [("batteryLevel", PyVal.i n)] now).get_node_telemetry_battery id =
      some (if n = 101 then "PWR" else toString n ++ "%")) := by
  refine ⟨rfl, by decide, rfl, ?_, ?_⟩
  · intro h
    simp [get_battery_status, h]
  · simp [NodeManager.get_node_telemetry_battery, get_node_update_self, dget,
      battery_value_str]

/-- C7 witness: the hypothesis of the percentage branch, discharged at 57. -/
theorem c7_battery_render_witness :
    ((57 : Int) ≠ 101) ∧ get_battery_status 57 = toString (57 : Int) ++ "%" ∧
    ((NodeManager.init.update_node "!n1" [("batteryLevel", PyVal.i 57)]
        "t0").get_node_telemetry_battery "!n1" = some "57%") := by
  have h := c7_battery_render NodeManager.init "!n1" "t0" 57
  refine ⟨by decide, h.2.2.2.1 (by decide), ?_⟩
  rw [h.2.2.2.2]
  decide

/-- C10: update_node_position is a complete no-op (record, timestamps and
history all unchanged, the whole state being equal) when latitudeI or
longitudeI is missing from the position payload; with both present it stores
the fixed-point values divided by 1e7 and stamps last_position_update. -/
theorem c10_update_node_position (nm : NodeManager) (id : String) (pos : PositionData)
    (now : String) :
    ((pos.latitudeI = none ∨ pos.longitudeI = none) →
      nm.update_node_position id pos now = nm) ∧
    (∀ lat lon, pos.latitudeI = some lat → pos.longitudeI = some lon →
      (nm.update_node_position id pos now).node_field id "latitude" =
        some (PyVal.q ((lat : Rat) / 10000000)) ∧
      (nm.update_node_position id pos now).node_field id "longitude" =
        some (PyVal.q ((lon : Rat) / 10000000)) ∧
      (nm.update_node_position id pos now).node_field id "last_position_update" =
        some (PyVal.s now)) := by
  obtain ⟨plat, plon⟩ := pos
  constructor
  · rintro (h | h)
    · simp only at h
      subst h
      rfl
    · simp only at h
      subst h
      cases plat with
      | none => rfl
      | some a => rfl
  · intro lat lon hlat hlon
    simp only at hlat hlon
    subst hlat
    subst hlon
    exact ⟨node_field_update_hit _ _ _ _ (by decide) rfl,
           node_field_update_hit _ _ _ _ (by decide) rfl,
           node_field_update_hit _ _ _ _ (by decide) rfl⟩

/-- C10 witness: the no-op at a payload missing latitudeI, and the stored
scaled coordinates at a payload carrying both fixed-point fields. -/
theorem c10_update_node_position_witness :
    (((⟨none, some 5⟩ : PositionData).latitudeI = none ∨
        (⟨none, some 5⟩ : PositionData).longitudeI = none) ∧
      NodeManager.init.update_node_position "!n1" ⟨none, some 5⟩ "t0" = NodeManager.init) ∧
    ((NodeManager.init.update_node_position "!n1" ⟨some 455000000, some (-1226000000)⟩
        "t0").node_field "!n1" "latitude" = some (PyVal.q (((455000000 : Int) : Rat) / 10000000)) ∧
      (NodeManager.init.update_node_position "!n1" ⟨some 455000000, some (-1226000000)⟩
        "t0").node_field "!n1" "longitude" =
          some (PyVal.q (((-1226000000 : Int) : Rat) / 10000000))) := by
  have h1 := c10_update_node_position NodeManager.init "!n1" ⟨none, some 5⟩ "t0"
  have h2 := c10_update_node_position NodeManager.init "!n1"
    ⟨some 455000000, some (-1226000000)⟩ "t0"
  have h3 := h2.2 455000000 (-1226000000) rfl rfl
  exact ⟨⟨Or.inl rfl, h1.1 (Or.inl rfl)⟩, h3.1, h3.2.1⟩

/-- C1: evaluation of handle_telegram_text at the failing input.  When the
radio sendText raises, send_message swallows the exception, enqueues the
retry message and returns Python None, so the handler still registers a
PendingAcknowledgment (keyed by None) and never notifies the chat side; and
when sendText succeeds with id 42, the registration is again keyed by None,
not by the radio-side message identifier. -/
theorem c1_handle_telegram_text_ack_registration :
    (handle_telegram_text ⟨[], [], []⟩ ⟨[]⟩ ⟨"alice", "hello", 1⟩ (some "!abc")
        (RadioOutcome.err "radio down") 0).1.pending_acks = [(none, ⟨1, 0⟩)] ∧
    (handle_telegram_text ⟨[], [], []⟩ ⟨[]⟩ ⟨"alice", "hello", 1⟩ (some "!abc")
        (RadioOutcome.err "radio down") 0).2.1.pending_messages =
      [⟨"[TG:alice] hello", "!abc", 0, none⟩] ∧
    ((handle_telegram_text ⟨[], [], []⟩ ⟨[]⟩ ⟨"alice", "hello", 1⟩ (some "!abc")
        (RadioOutcome.err "radio down") 0).2.2.all fun e => !e.isTelegram) = true ∧
    (handle_telegram_text ⟨[], [], []⟩ ⟨[]⟩ ⟨"alice", "hello", 1⟩ (some "!abc")
        (RadioOutcome.ok 42) 0).1.pending_acks = [(none, ⟨1, 0⟩)] ∧
    dget (some 42) (handle_telegram_text ⟨[], [], []⟩ ⟨[]⟩ ⟨"alice", "hello", 1⟩ (some "!abc")
        (RadioOutcome.ok 42) 0).1.pending_acks = none := by
  exact ⟨rfl, rfl, rfl, rfl, rfl⟩

/-- C2: evaluation of the retry loop at the failing input.  With a radio whose
sendText raises on every attempt, each sweep re-enqueues a fresh value-equal
copy with attempts 0 (inside send_message) and then list.remove deletes the
old one, so after any number of sweeps the queue still holds the message with
attempt count 0: it is never dropped and is retried on every sweep, far past
the intended 3-attempt cap. -/
theorem c2_retry_never_capped (n : Nat) :
    (fun l => process_pending_sweep 0 true l)^[n] [c2_msg] = [c2_msg] ∧
    c2_msg.attempts = 0 := by
  constructor
  · induction n with
    | zero => rfl
    | succ k ih =>
        rw [Function.iterate_succ_apply]
        exact ih
  · rfl

/-- C3: is_valid_coordinate accepts exactly latitude in -90..90, longitude in
-180..180 and altitude in -1000..50000 (rejecting missing coordinates), in
particular rejecting latitude 91, longitude 181, altitude -2000 and accepting
45.5, -122.6, 100; and when validation fails, handle_telegram_location leaves
the radio state untouched, makes no radio call, and reports invalid data to
the chat side. -/
theorem c3_location_validation :
    (∀ la lo al : Rat, is_valid_coordinate (some la) (some lo) al = true ↔
      (-90 ≤ la ∧ la ≤ 90 ∧ -180 ≤ lo ∧ lo ≤ 180 ∧ -1000 ≤ al ∧ al ≤ 50000)) ∧
    (∀ lo al, is_valid_coordinate none lo al = false) ∧
    (∀ la al, is_valid_coordinate la none al = false) ∧
    is_valid_coordinate (some 91) (some 0) 0 = false ∧
    is_valid_coordinate (some 0) (some 181) 0 = false ∧
    is_valid_coordinate (some 0) (some 0) (-2000) = false ∧
    is_valid_coordinate (some 45.5) (some (-122.6)) 100 = true ∧
    (∀ mst loc sender default_node radio,
      is_valid_coordinate (loc.getD ⟨none, none, none⟩).latitude
        (loc.getD ⟨none, none, none⟩).longitude
        ((loc.getD ⟨none, none, none⟩).altitude.getD 0) = false →
      (handle_telegram_location mst loc sender default_node radio).1 = mst ∧
      ((handle_telegram_location mst loc sender default_node radio).2.all
        fun e => !e.isRadio) = true ∧
      Effect.telegram_send
          "Failed to send location to Meshtastic. Invalid data: Invalid coordinates"
        ∈ (handle_telegram_location mst loc sender default_node radio).2) := by
  refine ⟨?_, ?_, ?_, by decide, by decide, by decide, ?_, ?_⟩
  · intro la lo al
    simp [is_valid_coordinate, and_assoc]
  · intro lo al
    rfl
  · intro la al
    cases la <;> rfl
  · simp only [is_valid_coordinate, Bool.and_eq_true, decide_eq_true_eq]
    norm_num
  · intro mst loc sender default_node radio hval
    simp [handle_telegram_location, hval, Effect.isRadio]

/-- C3 witness: latitude 91 is rejected and the handler then leaves the state
unchanged with no radio call. -/
theorem c3_location_validation_witness :
    is_valid_coordinate (some (91 : Rat)) (some 0) 0 = false ∧
    (handle_telegram_location ⟨[]⟩ (some ⟨some 91, some 0, some 0⟩) (some "alice")
        (some "!abc") (RadioOutcome.ok 1)).1 = ⟨[]⟩ ∧
    ((handle_telegram_location ⟨[]⟩ (some ⟨some 91, some 0, some 0⟩) (some "alice")
        (some "!abc") (RadioOutcome.ok 1)).2.all fun e => !e.isRadio) = true := by
  have h := c3_location_validation
  have h8 := h.2.2.2.2.2.2.2 ⟨[]⟩ (some ⟨some 91, some 0, some 0⟩) (some "alice")
    (some "!abc") (RadioOutcome.ok 1) (by decide)
  exact ⟨h.2.2.2.1, h8.1, h8.2.1⟩

/-- C4 counterexample: a pending acknowledgment whose stored chat message id
is 0 (falsy in Python) refutes the claim as stated — the ack packet with the
matching identifier removes the record, but no reaction is sent on the
associated chat message. -/
theorem c4_counterexample :
    dget (some 5) (⟨[], [], [(some 5, ⟨0, 17⟩)]⟩ : ProcState).pending_acks = some ⟨0, 17⟩ ∧
    (handle_ack ⟨[], [], [(some 5, ⟨0, 17⟩)]⟩ (some 5)).1.pending_acks = [] ∧
    ((handle_ack ⟨[], [], [(some 5, ⟨0, 17⟩)]⟩ (some 5)).2.all fun e => !e.isTelegram) = true := by
  exact ⟨rfl, rfl, rfl⟩

theorem handle_ack_absent (st : ProcState) (mid : Nat)
    (h : dget (some mid) st.pending_acks = none) :
    handle_ack st (some mid) =
      (st, [Effect.log_warning "Received ACK for unknown message ID"]) := by
  simp only [handle_ack, h]
  rw [derase_of_dget_none h]

/-- C4 (amended): for every ack packet carrying a message identifier, a
matching PendingAcknowledgment is removed exactly once (no other key is
touched, and a replay of the same ack is a state-preserving no-op with no
chat call) and, provided the stored chat message identifier is nonzero
(truthy), exactly one reaction is sent on the associated chat message; when
no record matches, the map is left unchanged, a warning is logged and no
chat call is made. -/
theorem c4_handle_ack_resolution (st : ProcState) (mid : Nat) :
    (∀ pm, dget (some mid) st.pending_acks = some pm →
      dget (some mid) (handle_ack st (some mid)).1.pending_acks = none ∧
      (∀ k, k ≠ some mid →
        dget k (handle_ack st (some mid)).1.pending_acks = dget k st.pending_acks) ∧
      (pm.telegram_message_id ≠ 0 →
        (handle_ack st (some mid)).2 =
          [Effect.telegram_add_reaction pm.telegram_message_id "✅"]) ∧
      (handle_ack (handle_ack st (some mid)).1 (some mid)).1 =
        (handle_ack st (some mid)).1 ∧
      ((handle_ack (handle_ack st (some mid)).1 (some mid)).2.all
        fun e => !e.isTelegram) = true) ∧
    (dget (some mid) st.pending_acks = none →
      (handle_ack st (some mid)).1 = st ∧
      (handle_ack st (some mid)).2 =
        [Effect.log_warning "Received ACK for unknown message ID"]) := by
  constructor
  · intro pm hpm
    have hstate : (handle_ack st (some mid)).1 =
        { st with pending_acks := derase (some mid) st.pending_acks } := by
      simp only [handle_ack, hpm]
      by_cases htg : pm.telegram_message_id ≠ 0 <;> simp [htg]
    have habsent : dget (some mid) (handle_ack st (some mid)).1.pending_acks = none := by
      rw [hstate]
      exact dget_derase_self _ _
    refine ⟨habsent, ?_, ?_, ?_, ?_⟩
    · intro k hk
      rw [hstate]
      exact dget_derase_ne (Ne.symm hk) _
    · intro htg
      simp only [handle_ack, hpm]
      simp [htg]
    · rw [handle_ack_absent _ _ habsent]
    · rw [handle_ack_absent _ _ habsent]
      rfl
  · intro hmiss
    rw [handle_ack_absent _ _ hmiss]
    exact ⟨rfl, rfl⟩

/-- C4 witness: a matching ack with a truthy stored chat id is removed and
produces exactly one reaction call. -/
theorem c4_handle_ack_resolution_witness :
    dget (some 5) (⟨[], [], [(some 5, ⟨7, 17⟩)]⟩ : ProcState).pending_acks = some ⟨7, 17⟩ ∧
    dget (some 5) (handle_ack ⟨[], [], [(some 5, ⟨7, 17⟩)]⟩ (some 5)).1.pending_acks = none ∧
    (handle_ack ⟨[], [], [(some 5, ⟨7, 17⟩)]⟩ (some 5)).2 =
      [Effect.telegram_add_reaction 7 "✅"] := by
  have h := (c4_handle_ack_resolution ⟨[], [], [(some 5, ⟨7, 17⟩)]⟩ 5).1 ⟨7, 17⟩ rfl
  exact ⟨rfl, h.1, h.2.2.1 (by decide)⟩

/-- C8 counterexample: a reaction event carrying an empty emoji string (falsy
in Python) and targeting a chat message that does have a radio correlate
makes no radio call, refuting the claim's "when a mapping exists" clause as
stated. -/
theorem c8_counterexample :
    dget 7 (⟨[(7, "m1")], [("m1", 7)], []⟩ : ProcState).message_id_map = some "m1" ∧
    ((handle_telegram_reaction ⟨[(7, "m1")], [("m1", 7)], []⟩ ⟨some "", some 7⟩).2.all
      fun e => !e.isRadio) = true ∧
    (handle_telegram_reaction ⟨[(7, "m1")], [("m1", 7)], []⟩ ⟨some "", some 7⟩).1 =
      ⟨[(7, "m1")], [("m1", 7)], []⟩ := by
  exact ⟨rfl, rfl, rfl⟩

/-- C8 (amended): handle_telegram_reaction never changes the processor state
and never raises; when the target chat message has no entry in the chat-to-
radio id map it makes no radio call; and when a mapping exists and the event
carries a truthy emoji and a truthy target id, it makes exactly the one
radio send_reaction call. -/
theorem c8_reaction_inert (st : ProcState) (msg : ReactionMsg) :
    (handle_telegram_reaction st msg).1 = st ∧
    ((∀ omid, msg.original_message_id = some omid → dget omid st.message_id_map = none) →
      ((handle_telegram_reaction st msg).2.all fun e => !e.isRadio) = true) ∧
    (∀ e omid mmid, msg.emoji = some e → e ≠ "" → msg.original_message_id = some omid →
      omid ≠ 0 → dget omid st.message_id_map = some mmid →
      (handle_telegram_reaction st msg).2 = [Effect.radio_sendReaction e mmid]) := by
  obtain ⟨em, oid⟩ := msg
  refine ⟨?_, ?_, ?_⟩
  · cases em with
    | none => cases oid <;> rfl
    | some e =>
      cases oid with
      | none => rfl
      | some omid =>
        by_cases hc : e = "" ∨ omid = 0
        · simp [handle_telegram_reaction, hc]
        · rcases hm : dget omid st.message_id_map with _ | mmid <;>
            simp [handle_telegram_reaction, hc, hm]
  · intro h
    cases em with
    | none => cases oid <;> rfl
    | some e =>
      cases oid with
      | none => rfl
      | some omid =>
        by_cases hc : e = "" ∨ omid = 0
        · simp [handle_telegram_reaction, hc, Effect.isRadio]
        · have hm := h omid rfl
          simp [handle_telegram_reaction, hc, hm, Effect.isRadio]
  · intro e omid mmid he hne hoid hzero hm
    simp only at he hoid
    subst he
    subst hoid
    have hc : ¬(e = "" ∨ omid = 0) := by
      rintro (h | h)
      · exact hne h
      · exact hzero h
    simp [handle_telegram_reaction, hc, hm]

/-- C8 witness: with a mapping and a well-formed reaction the radio call is
made; with no mapping no radio call is made. -/
theorem c8_reaction_inert_witness :
    (handle_telegram_reaction ⟨[(7, "m1")], [("m1", 7)], []⟩ ⟨some "👍", some 7⟩).1 =
      ⟨[(7, "m1")], [("m1", 7)], []⟩ ∧
    (handle_telegram_reaction ⟨[(7, "m1")], [("m1", 7)], []⟩ ⟨some "👍", some 7⟩).2 =
      [Effect.radio_sendReaction "👍" "m1"] ∧
    ((handle_telegram_reaction ⟨[], [], []⟩ ⟨some "👍", some 7⟩).2.all
      fun e => !e.isRadio) = true := by
  have h := c8_reaction_inert ⟨[(7, "m1")], [("m1", 7)], []⟩ ⟨some "👍", some 7⟩
  have h2 := c8_reaction_inert ⟨[], [], []⟩ ⟨some "👍", some 7⟩
  refine ⟨h.1, h.2.2 "👍" 7 "m1" rfl (by decide) rfl (by decide) rfl, h2.2.1 ?_⟩
  intro omid hh
  injection hh with hh2
  subst hh2
  rfl

/-- C9: send_message raises ValueError — with no pending message queued, no
radio call made and the state unchanged — exactly on empty text, empty
recipient, or text longer than 230 characters. -/
theorem c9_send_message_rejects (st : MeshState) (text recipient : String)
    (radio : RadioOutcome) (h : text = "" ∨ recipient = "" ∨ 230 < text.length) :
    ((send_message st text recipient radio).1 =
        Except.error "Text and recipient must not be empty" ∨
      (send_message st text recipient radio).1 = Except.error "Message too long") ∧
    (send_message st text recipient radio).2.1 = st ∧
    (send_message st text recipient radio).2.2 = [] := by
  unfold send_message
  by_cases h1 : text = "" ∨ recipient = ""
  · rw [if_pos h1]
    exact ⟨Or.inl rfl, rfl, rfl⟩
  · have h2 : 230 < text.length := by
      rcases h with h | h | h
      · exact absurd (Or.inl h) h1
      · exact absurd (Or.inr h) h1
      · exact h
    rw [if_neg h1, if_pos h2]
    exact ⟨Or.inr rfl, rfl, rfl⟩

/-- C9 witness: the empty-text case. -/
theorem c9_send_message_rejects_witness :
    (("" : String) = "" ∨ ("!abc" : String) = "" ∨ 230 < ("" : String).length) ∧
    (((send_message ⟨[]⟩ "" "!abc" (RadioOutcome.ok 1)).1 =
        Except.error "Text and recipient must not be empty" ∨
      (send_message ⟨[]⟩ "" "!abc" (RadioOutcome.ok 1)).1 = Except.error "Message too long") ∧
    (send_message ⟨[]⟩ "" "!abc" (RadioOutcome.ok 1)).2.1 = ⟨[]⟩ ∧
    (send_message ⟨[]⟩ "" "!abc" (RadioOutcome.ok 1)).2.2 = []) :=
  ⟨Or.inl rfl, c9_send_message_rejects ⟨[]⟩ "" "!abc" (RadioOutcome.ok 1) (Or.inl rfl)⟩

end Meshgram
